import Mathlib

/-!
Verification of the pdf-summarizer-backend RAG pipeline against its
natural-language specification.

The Python sources embedded here:
  * `src/lambda/processPdf/lambda_function.py` — ingestion pipeline
    (`chunk_text`, `validate_resume_content`, vector construction, the
    handler's failure classification);
  * `src/lambda/processGeneration/lambda_function.py` — generation pipeline
    (`validate_structured_output`, the Pinecone query retry loop, the
    terminal job writes);
  * `src/lambda/startGeneration/lambda_function.py` — the pre-flight credit
    gate and job creation;
  * `src/lambda/getGenerationStatus/lambda_function.py` — the polling
    endpoint.

Texts are embedded as `List Char`, machine integers as `Nat`/`Int` (none of
the arithmetic here can overflow in Python, whose ints are unbounded).
External services (S3, DynamoDB, Gemini, Pinecone) are represented by
explicit oracle fields in environment structures; the vector index itself is
modelled from the spec's contract for it (exact-match metadata filters).
-/

namespace PdfSummarizer

/-! ## Text chunker

Embedding of `chunk_text` (processPdf/lambda_function.py, lines 108-118):

    def chunk_text(text, chunk_size=1000, chunk_overlap=100):
        if not text:
            return []
        chunks = []
        start = 0
        while start < len(text):
            end = start + chunk_size
            chunks.append(text[start:end])
            start += chunk_size - chunk_overlap
        return chunks

The while loop is given explicit fuel so that (non-)termination is
observable: `none` means the fuel ran out before `start` reached the end of
the text.  Python's slice `text[start:end]` for `0 ≤ start ≤ end` is
`(text.drop start).take (end - start)`.  `start += chunk_size - chunk_overlap`
uses truncated `Nat` subtraction; for `chunk_overlap < chunk_size` this
matches Python exactly, and for `chunk_overlap ≥ chunk_size` both the Python
loop and this model fail to advance past `start < len(text)` forever
(Python's `start` moves to negative values when `chunk_overlap > chunk_size`;
either way the loop never terminates). -/

def chunkTextLoop (text : List Char) (chunk_size chunk_overlap : Nat) :
    Nat → Nat → Option (List (List Char))
  | start, 0 => if start < text.length then none else some []
  | start, fuel + 1 =>
    if start < text.length then
      (chunkTextLoop text chunk_size chunk_overlap
          (start + (chunk_size - chunk_overlap)) fuel).map
        (((text.drop start).take chunk_size) :: ·)
    else
      some []

/-- `chunk_text` with the source's default parameters baked in as default
arguments.  `text.length` units of fuel always suffice when
`chunk_overlap < chunk_size` (the loop advances by at least one each
iteration), so the `getD []` never fires in that regime. -/
def chunk_text (text : List Char) (chunk_size : Nat := 1000)
    (chunk_overlap : Nat := 100) : List (List Char) :=
  (chunkTextLoop text chunk_size chunk_overlap 0 text.length).getD []

/-- Proof-side restatement of the loop on the remaining suffix of the text:
`chunksAux cs co fuel t` is what the loop produces when `t` is the part of
the text from the current `start` onwards.  Related to `chunkTextLoop` by
`chunkTextLoop_eq_chunksAux`. -/
def chunksAux (cs co : Nat) : Nat → List Char → List (List Char)
  | _, [] => []
  | 0, _ :: _ => []
  | fuel + 1, c :: t =>
    ((c :: t).take cs) :: chunksAux cs co fuel ((c :: t).drop (cs - co))

/-- Reassembly of a chunk list: the stride-sized non-overlapping portion of
every chunk but the last, then the last chunk in full. -/
def reassemble (stride : Nat) (l : List (List Char)) : List Char :=
  (l.dropLast.map (List.take stride)).join ++ (l.getLast?.getD [])

/-- Per-chunk lengths depend only on the input length: the `Nat`-level mirror
of `chunksAux`. -/
def chunkLens (cs co : Nat) : Nat → Nat → List Nat
  | _, 0 => []
  | 0, _ + 1 => []
  | fuel + 1, n + 1 => min cs (n + 1) :: chunkLens cs co fuel (n + 1 - (cs - co))

/-! ## Resume-content validation heuristic

Embedding of `validate_resume_content` (processPdf/lambda_function.py,
lines 46-106).  Python's `str.split()` (split on whitespace runs, dropping
empties) is mirrored by `pyWordCount`; `keyword in text_lower` is substring
containment; `str.lower()` is `Char.toLower` per character (ASCII-faithful,
which covers every keyword the source tests). -/

def pyIsSpace (c : Char) : Bool := c.isWhitespace

/-- Number of maximal non-whitespace runs, i.e. `len(text.split())`.  The
second argument records whether the previous character was inside a word. -/
def wordCountAux : List Char → Bool → Nat
  | [], _ => 0
  | c :: cs, inWord =>
    if pyIsSpace c then wordCountAux cs false
    else (if inWord then 0 else 1) + wordCountAux cs true

def pyWordCount (t : List Char) : Nat := wordCountAux t false

/-- Python `str.strip()`: drop whitespace from both ends. -/
def pyStrip (t : List Char) : List Char :=
  ((t.dropWhile pyIsSpace).reverse.dropWhile pyIsSpace).reverse

/-- Python `needle in hay` on strings: substring containment. -/
def containsSub (hay : List Char) (needle : String) : Bool :=
  decide (needle.data <:+: hay)

def resume_keywords : List String :=
  ["experience", "education", "skills", "work", "employment",
   "university", "degree", "bachelor", "master", "phd",
   "project", "responsibilities", "achievements", "accomplishments",
   "certification", "training", "qualification", "professional",
   "career", "resume", "curriculum vitae", "cv", "objective"]

def contact_indicators : List String :=
  ["email", "phone", "linkedin", "github", "portfolio",
   "@", "tel:", "mobile", "address"]

def professional_terms : List String :=
  ["developed", "managed", "led", "implemented", "designed",
   "created", "built", "analyzed", "coordinated", "collaborated",
   "programming", "software", "engineer", "developer", "analyst",
   "manager", "specialist", "consultant", "director"]

def non_resume_indicators : List String :=
  ["chapter", "abstract", "references", "bibliography", "introduction",
   "conclusion", "figure", "table of contents"]

structure ResumeValidation where
  is_valid : Bool
  reason : String
deriving DecidableEq, Repr

def validate_resume_content (text : List Char) : ResumeValidation :=
  let text_lower := text.map Char.toLower
  let word_count := pyWordCount text
  let keyword_matches := resume_keywords.countP (containsSub text_lower)
  let contact_matches := contact_indicators.countP (containsSub text_lower)
  let professional_matches := professional_terms.countP (containsSub text_lower)
  if word_count < 50 then
    ⟨false, "The document is too short to be a resume. Please upload a complete resume with your work experience, education, and skills."⟩
  else if keyword_matches < 3 ∧ contact_matches < 2 ∧ professional_matches < 3 then
    ⟨false, "This document doesn't appear to contain resume information. Please upload a PDF with your professional experience, skills, and education."⟩
  else
    let non_resume_matches := non_resume_indicators.countP (containsSub text_lower)
    if non_resume_matches ≥ 4 ∧ keyword_matches < 5 then
      ⟨false, "This appears to be an academic paper, book, or article rather than a resume. Please upload your professional resume or CV."⟩
    else ⟨true, ""⟩

/-! ## Ingestion pipeline (processPdf handler)

The handler model covers the part of `lambda_handler`
(processPdf/lambda_function.py, lines 168-247) that runs once the S3 object
and its `fileid` metadata have been resolved.  External effects appear as
oracle fields: `embed` is `get_embedding` (which catches its own exceptions
and returns `None`, line 130-132), `upsertError`/`readyUpdateError` model the
Pinecone upsert and the final DynamoDB update raising (`some msg` is the
exception's `str(e)`). -/

structure VecMeta where
  text : List Char
  original_file_id : String
  user_id : String
deriving DecidableEq, Repr

structure UpsertVector where
  id : String
  values : List Int
  metadata : VecMeta
deriving DecidableEq, Repr

/-- Lines 184-199: build `vectors_to_upsert` from the chunks; a chunk whose
embedding failed (`None`) is skipped. -/
def buildVectors (fileId userId : String)
    (embed : List Char → Option (List Int))
    (chunks : List (List Char)) : List UpsertVector :=
  chunks.enum.filterMap fun p =>
    (embed p.2).map fun emb =>
      { id := fileId ++ "-" ++ toString p.1
        values := emb
        metadata :=
          { text := p.2
            original_file_id := fileId
            user_id := userId } }

structure PdfEnv where
  userId : String
  fileId : String
  extractedText : List Char
  embed : List Char → Option (List Int)
  upsertError : Option String
  readyUpdateError : Option String

/-- The terminal DynamoDB write the handler performs for this file:
`ready` is the `READY_FOR_QUERY` update (carrying the vectors that were
upserted), `failed` is the error-path update
(`processingStatus = FAILED, summary = <msg>, errorType = <type>`). -/
inductive PdfOutcome where
  | ready (vectors : List UpsertVector)
  | failed (summary errorType : String)
deriving DecidableEq, Repr

def process_pdf (env : PdfEnv) : PdfOutcome :=
  let full_text := pyStrip env.extractedText
  if full_text = [] then
    -- raise ValueError("No text could be extracted from the PDF.")
    .failed "No text could be extracted from the PDF." "PROCESSING_ERROR"
  else
    let v := validate_resume_content full_text
    if v.is_valid = false then
      -- raise ValueError(f"NOT_A_RESUME: {reason}"); the except block strips
      -- the marker back off and classifies as VALIDATION_ERROR
      .failed v.reason "VALIDATION_ERROR"
    else
      let text_chunks := chunk_text full_text
      let vectors := buildVectors env.fileId env.userId env.embed text_chunks
      -- `if vectors_to_upsert:` — the upsert loop only runs when nonempty
      match (if vectors ≠ [] then env.upsertError else none) with
      | some e => .failed e "PROCESSING_ERROR"
      | none =>
        match env.readyUpdateError with
        | some e => .failed e "PROCESSING_ERROR"
        | none => .ready vectors

/-! ## Vector index (external collaborator)

Modelled from the spec: the Vector Index "stores (vector, metadata) pairs
keyed by an opaque id, supports upsert and top-k similarity query with
exact-match metadata filters" (spec §2).  Similarity ranking is abstracted:
`stored` may be supplied in any order, and the query keeps the first `top_k`
entries that pass the metadata filter.  The membership property proved about
it does not depend on the ordering. -/

def index_query (stored : List UpsertVector) (filt : VecMeta → Bool)
    (top_k : Nat) : List UpsertVector :=
  (stored.filter fun v => filt v.metadata).take top_k

/-- The metadata filter the generation pipeline passes to the query
(processGeneration/lambda_function.py, lines 346-351):
`{"$and": [{"original_file_id": {"$eq": file_id}}, {"user_id": {"$eq": user_id}}]}`. -/
def generation_filter (fileId userId : String) (m : VecMeta) : Bool :=
  m.original_file_id == fileId && m.user_id == userId

/-! ## Parsed JSON values and Python dynamic-typing primitives

`validate_structured_output` receives the object produced by `json.loads`,
so the value space is JSON: strings, numbers, booleans, null, arrays,
objects.  Numbers are modelled as `Int` (the score checks in the source
compare against the integers 0 and 100; the fractional part of a float
plays no role in any claim).  Python raises `TypeError` when `in` or
indexing is applied to a value that does not support it — `pyContains`,
`pyGetItem` and `pyIter` make those raises explicit in `Except`. -/

inductive Json where
  | str (s : String)
  | num (n : Int)
  | bool (b : Bool)
  | null
  | arr (elems : List Json)
  | obj (fields : List (String × Json))

inductive PyExc where
  | valueError (msg : String)
  | typeError
  | keyError (key : String)
deriving DecidableEq, Repr

def Json.isObj : Json → Bool
  | .obj _ => true
  | _ => false

def Json.isArr : Json → Bool
  | .arr _ => true
  | _ => false

def Json.isStr : Json → Bool
  | .str _ => true
  | _ => false

def Json.isNone : Json → Bool
  | .null => true
  | _ => false

/-- Python `x == s` for a string literal `s`: value equality on strings,
`False` against any other type. -/
def pyEqStr (v : Json) (s : String) : Bool :=
  match v with
  | .str t => t == s
  | _ => false

/-- Python `key in v`: key membership for dicts, element equality for lists,
substring test for strings, `TypeError` otherwise. -/
def pyContains (key : String) : Json → Except PyExc Bool
  | .obj fs => .ok (fs.any fun p => p.1 == key)
  | .arr xs => .ok (xs.any fun x => pyEqStr x key)
  | .str s => .ok (decide (key.data <:+: s.data))
  | _ => .error .typeError

/-- Python `v[key]` with a string key. -/
def pyGetItem (v : Json) (key : String) : Except PyExc Json :=
  match v with
  | .obj fs =>
    match fs.find? (fun p => p.1 == key) with
    | some p => .ok p.2
    | none => .error (.keyError key)
  | _ => .error .typeError

/-- Python iteration, as used by `enumerate(v)`: a dict yields its keys, a
string yields its characters as 1-character strings. -/
def pyIter : Json → Except PyExc (List Json)
  | .arr xs => .ok xs
  | .obj fs => .ok (fs.map fun p => Json.str p.1)
  | .str s => .ok (s.data.map fun c => Json.str (String.singleton c))
  | _ => .error .typeError

/-- Python truthiness (`not v`). -/
def pyFalsy : Json → Bool
  | .str s => s == ""
  | .num n => n == 0
  | .bool b => !b
  | .null => true
  | .arr xs => xs.isEmpty
  | .obj fs => fs.isEmpty

/-- `isinstance(v, (int, float))` — Python `bool` is a subclass of `int`. -/
def pyIsNumber : Json → Bool
  | .num _ => true
  | .bool _ => true
  | _ => false

/-- Numeric value used in the score comparisons (`True` counts as 1). -/
def pyNumVal : Json → Int
  | .num n => n
  | .bool b => if b then 1 else 0
  | _ => 0

/-- `"; ".join(errors)` -/
def joinSemi (errs : List String) : String := String.intercalate "; " errs

/-! ## Structured-output schema validation

Embedding of `validate_structured_output`
(processGeneration/lambda_function.py, lines 49-237), split into one helper
per section of the source, in source order.  Every helper returns the list
of error strings that section appends to `errors`, or the Python exception
it raises. -/

/-- `for field in fields: if field not in v: errors.append(mk field)` -/
def requiredFieldErrs (v : Json) (fields : List String)
    (mk : String → String) : Except PyExc (List String) :=
  fields.foldlM (fun acc f => do
    let c ← pyContains f v
    pure (if c then acc else acc ++ [mk f])) []

/-- Lines 82-85: name/email with a truthiness check
(`if field not in contact or not contact[field]`). -/
def contactRequiredErrs (contact : Json) : Except PyExc (List String) :=
  ["name", "email"].foldlM (fun acc f => do
    let c ← pyContains f contact
    if !c then
      pure (acc ++ ["Contact missing required '" ++ f ++ "' field"])
    else do
      let v ← pyGetItem contact f
      pure (if pyFalsy v then
        acc ++ ["Contact missing required '" ++ f ++ "' field"] else acc)) []

/-- Lines 88-91: optional contact fields must be strings when present and
not `None`. -/
def contactOptionalErrs (contact : Json) : Except PyExc (List String) :=
  ["phone", "linkedin", "github", "location"].foldlM (fun acc f => do
    let c ← pyContains f contact
    if c then do
      let v ← pyGetItem contact f
      pure (if !v.isNone && !v.isStr then
        acc ++ ["Contact '" ++ f ++ "' must be a string if provided"] else acc)
    else pure acc) []

/-- Lines 102-108. -/
def skillCatErrs (items : List Json) : Except PyExc (List String) :=
  items.enum.foldlM (fun acc p =>
    if !p.2.isObj then
      pure (acc ++ ["Skill category " ++ toString p.1 ++ " must be an object"])
    else do
      let c1 ← pyContains "category" p.2
      if !c1 then
        pure (acc ++ ["Skill category " ++ toString p.1 ++
          " missing 'category' or 'skills' field"])
      else do
        let c2 ← pyContains "skills" p.2
        if !c2 then
          pure (acc ++ ["Skill category " ++ toString p.1 ++
            " missing 'category' or 'skills' field"])
        else do
          let sv ← pyGetItem p.2 "skills"
          pure (if !sv.isArr then
            acc ++ ["Skill category " ++ toString p.1 ++
              " 'skills' must be an array"] else acc)) []

/-- Lines 111-117. -/
def expItemErrs (items : List Json) : Except PyExc (List String) :=
  items.enum.foldlM (fun acc p => do
    let acc2 ← ["title", "company", "startDate", "endDate", "achievements"].foldlM
      (fun acc2 f => do
        let c ← pyContains f p.2
        pure (if !c then
          acc2 ++ ["Experience " ++ toString p.1 ++ " missing '" ++ f ++ "' field"]
          else acc2)) acc
    let cA ← pyContains "achievements" p.2
    if cA then do
      let av ← pyGetItem p.2 "achievements"
      pure (if !av.isArr then
        acc2 ++ ["Experience " ++ toString p.1 ++ " 'achievements' must be an array"]
        else acc2)
    else pure acc2) []

/-- Per-item required-field pattern shared by the education, publications,
certifications, awards and volunteer sections. -/
def itemFieldErrs (label : String) (fields : List String)
    (items : List Json) : Except PyExc (List String) :=
  items.enum.foldlM (fun acc p =>
    fields.foldlM (fun acc2 f => do
      let c ← pyContains f p.2
      pure (if !c then
        acc2 ++ [label ++ " " ++ toString p.1 ++ " missing '" ++ f ++ "' field"]
        else acc2)) acc) []

/-- The two-key short-circuit pattern of the projects, memberships and
languages sections (`if k1 not in item or k2 not in item`); `keys2` empty
means only one key is required (memberships). -/
def pairFieldErrs (mkMsg : Nat → String) (k1 : String) (k2 : Option String)
    (items : List Json) : Except PyExc (List String) :=
  items.enum.foldlM (fun acc p => do
    let c1 ← pyContains k1 p.2
    if !c1 then pure (acc ++ [mkMsg p.1])
    else
      match k2 with
      | none => pure acc
      | some k => do
        let c2 ← pyContains k p.2
        pure (if !c2 then acc ++ [mkMsg p.1] else acc)) []

/-- Optional-section pattern (lines 129-197): present → must be an array,
and when it is, per-item checks run. -/
def optionalSectionErrs (resume : Json) (key arrMsg : String)
    (itemErrs : List Json → Except PyExc (List String)) :
    Except PyExc (List String) := do
  let c ← pyContains key resume
  if c then do
    let v ← pyGetItem resume key
    if !v.isArr then pure [arrMsg]
    else do
      let items ← pyIter v
      itemErrs items
  else pure []

/-- Lines 200-208. -/
def coverLetterErrs (cover_letter : Json) : Except PyExc (List String) :=
  if !cover_letter.isObj then pure ["Cover letter must be an object"]
  else do
    let e ← requiredFieldErrs cover_letter ["companyName", "position", "paragraphs"]
      (fun f => "Cover letter missing '" ++ f ++ "' field")
    let c ← pyContains "paragraphs" cover_letter
    if c then do
      let pv ← pyGetItem cover_letter "paragraphs"
      pure (if !pv.isArr then e ++ ["Cover letter 'paragraphs' must be an array"] else e)
    else pure e

/-- Lines 211-232. -/
def matchScoreErrs (data : Json) : Except PyExc (List String) := do
  let c ← pyContains "matchScore" data
  if !c then pure ["Missing 'matchScore' field"]
  else do
    let ms ← pyGetItem data "matchScore"
    let e1 ← requiredFieldErrs ms
      ["overallScore", "skillsMatch", "experienceMatch", "educationMatch",
       "summary", "strengths", "gaps"]
      (fun f => "Match score missing '" ++ f ++ "' field")
    let e2 ← ["overallScore", "skillsMatch", "experienceMatch", "educationMatch"].foldlM
      (fun acc f => do
        let cf ← pyContains f ms
        if cf then do
          let s ← pyGetItem ms f
          pure (if !pyIsNumber s || pyNumVal s < 0 || pyNumVal s > 100 then
            acc ++ ["Match score '" ++ f ++ "' must be a number between 0-100"]
            else acc)
        else pure acc) e1
    let e3 ← (do
      let cs2 ← pyContains "strengths" ms
      if cs2 then do
        let sv ← pyGetItem ms "strengths"
        pure (if !sv.isArr then ["Match score 'strengths' must be an array"] else [])
      else pure ([] : List String))
    let e4 ← (do
      let cg ← pyContains "gaps" ms
      if cg then do
        let gv ← pyGetItem ms "gaps"
        pure (if !gv.isArr then ["Match score 'gaps' must be an array"] else [])
      else pure ([] : List String))
    pure (e2 ++ e3 ++ e4)

/-- Lines 81-232: everything after the two staged raises, in source order.
The resulting list is exactly the `errors` list at line 234. -/
def collectStage3 (data resume cover_letter : Json) :
    Except PyExc (List String) := do
  let contact ← pyGetItem resume "contact"
  let eC1 ← contactRequiredErrs contact
  let eC2 ← contactOptionalErrs contact
  let skills ← pyGetItem resume "skills"
  let experience ← pyGetItem resume "experience"
  let education ← pyGetItem resume "education"
  let eArr :=
    (if !skills.isArr then ["'skills' must be an array"] else []) ++
    (if !experience.isArr then ["'experience' must be an array"] else []) ++
    (if !education.isArr then ["'education' must be an array"] else [])
  let skillItems ← pyIter skills
  let eSk ← skillCatErrs skillItems
  let expItems ← pyIter experience
  let eEx ← expItemErrs expItems
  let eduItems ← pyIter education
  let eEd ← itemFieldErrs "Education" ["degree", "institution", "graduationYear"] eduItems
  let ePr ← optionalSectionErrs resume "projects" "'projects' must be an array"
    (pairFieldErrs (fun i => "Project " ++ toString i ++ " missing 'name' or 'description' field")
      "name" (some "description"))
  let ePu ← optionalSectionErrs resume "publications" "'publications' must be an array"
    (itemFieldErrs "Publication" ["title", "authors", "venue", "date"])
  let eCe ← optionalSectionErrs resume "certifications" "'certifications' must be an array"
    (itemFieldErrs "Certification" ["name", "issuer"])
  let eAw ← optionalSectionErrs resume "awards" "'awards' must be an array"
    (itemFieldErrs "Award" ["title", "issuer", "date"])
  let eVo ← optionalSectionErrs resume "volunteerExperience"
    "'volunteerExperience' must be an array"
    (itemFieldErrs "Volunteer" ["role", "organization", "startDate", "endDate", "description"])
  let eMe ← optionalSectionErrs resume "professionalMemberships"
    "'professionalMemberships' must be an array"
    (pairFieldErrs (fun i => "Membership " ++ toString i ++ " missing 'organization' field")
      "organization" none)
  let eLa ← optionalSectionErrs resume "languages" "'languages' must be an array"
    (pairFieldErrs (fun i => "Language " ++ toString i ++ " missing 'language' or 'proficiency' field")
      "language" (some "proficiency"))
  let eCl ← coverLetterErrs cover_letter
  let eMs ← matchScoreErrs data
  pure (eC1 ++ eC2 ++ eArr ++ eSk ++ eEx ++ eEd ++ ePr ++ ePu ++ eCe ++ eAw ++
    eVo ++ eMe ++ eLa ++ eCl ++ eMs)

/-- `validate_structured_output` — `ok true` is the function's `return True`;
`error (valueError m)` is a `raise ValueError(m)`; `error typeError` /
`error (keyError k)` are the uncaught exceptions dynamic typing can raise. -/
def validate_structured_output (data : Json) : Except PyExc Bool := do
  if !data.isObj then throw (PyExc.valueError "Output must be a JSON object")
  let cR ← pyContains "resume" data
  let cC ← pyContains "coverLetter" data
  let e0 := (if cR then [] else ["Missing 'resume' field"]) ++
    (if cC then [] else ["Missing 'coverLetter' field"])
  if e0 ≠ [] then throw (PyExc.valueError (joinSemi e0))
  let resume ← pyGetItem data "resume"
  let cover_letter ← pyGetItem data "coverLetter"
  let e1 ← requiredFieldErrs resume
    ["contact", "summary", "skills", "experience", "education"]
    (fun f => "Resume missing '" ++ f ++ "' field")
  if e1 ≠ [] then throw (PyExc.valueError (joinSemi e1))
  let e2 ← collectStage3 data resume cover_letter
  if e2 ≠ [] then throw (PyExc.valueError (joinSemi e2))
  pure true

/-! ## Generation job records and handlers

`GenerationJob` items of the jobs table (DynamoDB).  `structuredData` is
stored by the pipeline as `json.dumps(structured_output)`; the serialized
string is abstracted to the `Json` value it encodes. -/

structure JobRecord where
  jobId : String
  userId : Option String
  fileId : Option String
  jobDescription : Option String
  status : String
  createdAt : Option Nat
  completedAt : Option Nat
  ttl : Option Nat
  structuredData : Option Json
  companyName : Option String
  jobTitle : Option String
  tailoredResume : Option String
  coverLetter : Option String
  errorMessage : Option String

/-- The item `startGeneration` puts (startGeneration/lambda_function.py,
lines 112-120). -/
def new_job_record (jobId user_id file_id job_description : String)
    (now : Nat) : JobRecord :=
  { jobId := jobId
    userId := some user_id
    fileId := some file_id
    jobDescription := some job_description
    status := "PROCESSING"
    createdAt := some now
    completedAt := none
    ttl := some (now + 86400)
    structuredData := none
    companyName := none
    jobTitle := none
    tailoredResume := none
    coverLetter := none
    errorMessage := none }

/-- Python truthiness of an optional string request field
(`if not file_id`): absent or empty both count as missing. -/
def present (v : Option String) : Bool :=
  match v with
  | none => false
  | some s => s ≠ ""

structure UserProfile where
  subscriptionTier : Option String
  creditsRemaining : Option Int

inductive GateDecision where
  | allow
  | reject
deriving DecidableEq, Repr

/-- The pre-flight credit gate (startGeneration/lambda_function.py, lines
68-102).  The argument is the outcome of the `user_profiles_table.get_item`
call: `error ()` models the lookup (or the `int(...)` conversion) raising,
`ok none` a response without an `Item`. -/
def credit_gate (profileLookup : Except Unit (Option UserProfile)) :
    GateDecision :=
  match profileLookup with
  | .error _ => .allow -- except: fail open for backwards compatibility
  | .ok none => .allow -- no profile: default free tier with 3 credits
  | .ok (some profile) =>
    let subscription_tier := profile.subscriptionTier.getD "free"
    if subscription_tier ≠ "unlimited" then
      let credits_remaining := profile.creditsRemaining.getD 3
      if credits_remaining ≤ 0 then .reject else .allow
    else .allow

/-- The summaries-table item consulted for the ownership check. -/
structure FileItem where
  userId : Option String

structure StartEnv where
  authUserId : Option String
  fileId : Option String
  jobDescription : Option String
  fileLookup : Except Unit (Option FileItem)
  profileLookup : Except Unit (Option UserProfile)
  newJobId : String
  now : Nat

structure StartResult where
  statusCode : Nat
  jobCreated : Option JobRecord

/-- `startGeneration.lambda_handler` (lines 18-147).  The put_item and the
asynchronous invoke are assumed not to raise (their failure would be a 500
with no job; no claim depends on it). -/
def start_generation (env : StartEnv) : StartResult :=
  match env.authUserId with
  | none => { statusCode := 401, jobCreated := none }
  | some user_id =>
    if !present env.fileId || !present env.jobDescription then
      { statusCode := 400, jobCreated := none }
    else
      let ownershipReject : Option StartResult :=
        match env.fileLookup with
        | .error _ => none -- except: continue anyway (backwards compatibility)
        | .ok none => some { statusCode := 404, jobCreated := none }
        | .ok (some item) =>
          match item.userId with
          | some owner =>
            if owner ≠ "" && owner ≠ user_id then
              some { statusCode := 403, jobCreated := none }
            else none
          | none => none
      match ownershipReject with
      | some r => r
      | none =>
        match credit_gate env.profileLookup with
        | .reject => { statusCode := 403, jobCreated := none }
        | .allow =>
          { statusCode := 200
            jobCreated := some (new_job_record env.newJobId user_id
              (env.fileId.getD "") (env.jobDescription.getD "") env.now) }

/-! ## Generation pipeline (processGeneration handler) -/

/-- One Pinecone query attempt as issued by the pipeline (lines 342-352):
top_k = 5, metadata filter on both `original_file_id` and `user_id`.
`indexAt n` is the index contents visible at attempt `n` (the retry exists
to absorb eventual-consistency lag, so the visible contents may differ
between attempts); `queryError n` models the client raising. -/
def gen_query_attempt (fileId owner : String)
    (indexAt : Nat → List UpsertVector) (queryError : Nat → Option String)
    (n : Nat) : Except String (List UpsertVector) :=
  match queryError n with
  | some e => .error e
  | none => .ok (index_query (indexAt n) (generation_filter fileId owner) 5)

/-- The retry loop (lines 336-366): `max_retries = 2`; an empty first result
sleeps one second and queries again; an exception on the last attempt is
re-raised.  The second component counts the query attempts made. -/
def query_loop (q : Nat → Except String (List UpsertVector)) :
    Except String (Option (List UpsertVector)) × Nat :=
  match q 0 with
  | .ok ms =>
    if ms ≠ [] then (.ok (some ms), 1)
    else
      match q 1 with
      | .ok ms2 => (.ok (some ms2), 2)
      | .error e => (.error e, 2)
  | .error _ =>
    match q 1 with
    | .ok ms2 => (.ok (some ms2), 2)
    | .error e => (.error e, 2)

/-- Lines 673-679: strip residual markdown code fences. -/
def strip_code_fences (s : String) : String :=
  let t := s.trim
  if t.startsWith "```json" then ((t.replace "```json" "").replace "```" "").trim
  else if t.startsWith "```" then (t.replace "```" "").trim
  else t

/-- What `processGeneration.lambda_handler` writes to the job record when it
finishes: `completed` is the COMPLETED update (lines 696-711), `failed msg`
a FAILED update with that `errorMessage`, `failedOther` a FAILED update
whose message renders an exception this model does not give text to
(TypeError/KeyError from dynamic typing), and `noWrite` an exception raised
with `job_id` still falsy (lines 720, 741, 762: no update happens). -/
inductive GenResult where
  | completed (structuredData : Json) (companyName jobTitle : String)
  | failed (errorMessage : String)
  | failedOther
  | noWrite

structure GenEnv where
  jobId : Option String
  jobDescription : Option String
  fileId : Option String
  fileOwner : Option String -- the summaries item's userId, if resolvable
  companyTitle : String × String -- extract_company_and_position (never raises)
  embedError : Option String -- genai.embed_content raising
  indexAt : Nat → List UpsertVector
  queryError : Nat → Option String
  llm : Except String String -- generative_model.generate_content(...).text
  parse : String → Except String Json -- json.loads on the cleaned response

/-- `processGeneration.lambda_handler` (lines 279-777), from parameter
extraction to the terminal job write.  The three except-blocks produce the
`errorMessage` prefixes "Failed to parse JSON from LLM: ",
"Validation error: " and "Unexpected error: " seen below
(`json.JSONDecodeError` is checked before its superclass `ValueError`). -/
def process_generation (env : GenEnv) : GenResult :=
  if !present env.jobId || !present env.jobDescription || !present env.fileId then
    if present env.jobId then
      .failed "Validation error: jobId, jobDescription, and fileId are required"
    else .noWrite
  else
    match env.fileOwner with
    | none =>
      .failed ("Validation error: Could not find userId for fileId: " ++
        env.fileId.getD "")
    | some user_id =>
      match env.embedError with
      | some e => .failed ("Unexpected error: " ++ e)
      | none =>
        match query_loop (gen_query_attempt (env.fileId.getD "") user_id
            env.indexAt env.queryError) with
        | (.error e, _) => .failed ("Unexpected error: " ++ e)
        | (.ok qr, _) =>
          let found := qr.getD []
          if found = [] then
            .failed "Validation error: Could not find relevant sections in master resume"
          else
            match env.llm with
            | .error e => .failed ("Unexpected error: " ++ e)
            | .ok raw =>
              match env.parse (strip_code_fences raw) with
              | .error e => .failed ("Failed to parse JSON from LLM: " ++ e)
              | .ok structured_output =>
                match validate_structured_output structured_output with
                | .error (.valueError m) => .failed ("Validation error: " ++ m)
                | .error _ => .failedOther
                | .ok _ =>
                  .completed structured_output env.companyTitle.1 env.companyTitle.2

/-- The DynamoDB effect of the terminal write on the job item.  For
`failedOther` the code also sets an `errorMessage` whose text renders a
CPython exception; that text is not modelled. -/
def apply_gen_result (rec : JobRecord) (r : GenResult) (now : Nat) : JobRecord :=
  match r with
  | .completed data company title =>
    { rec with
        status := "COMPLETED"
        structuredData := some data
        companyName := some company
        jobTitle := some title
        completedAt := some now
        ttl := some (now + 365 * 24 * 60 * 60) }
  | .failed msg => { rec with status := "FAILED", errorMessage := some msg }
  | .failedOther => { rec with status := "FAILED" }
  | .noWrite => rec

/-! ## Job-status polling endpoint -/

def jsonOfNatOpt (v : Option Nat) : Json :=
  match v with
  | some n => .num n
  | none => .null

structure StatusResponse where
  statusCode : Nat
  body : Json

/-- `getGenerationStatus.lambda_handler` (lines 31-98).  `lookup` is the
jobs-table `get_item`; `convert_decimal` is the identity here because the
model's numbers are already integers. -/
def get_generation_status (authUserId : Option String)
    (jobIdParam : Option String) (lookup : String → Option JobRecord) :
    StatusResponse :=
  match authUserId with
  | none => { statusCode := 401, body := .obj [("error", .str "Authentication required")] }
  | some user_id =>
    if !present jobIdParam then
      { statusCode := 400
        body := .obj [("error", .str "jobId query parameter is required")] }
    else
      match lookup (jobIdParam.getD "") with
      | none => { statusCode := 404, body := .obj [("error", .str "Job not found")] }
      | some item =>
        let forbidden :=
          match item.userId with
          | some owner => owner ≠ "" && owner ≠ user_id
          | none => false
        if forbidden then
          { statusCode := 403
            body := .obj [("error", .str "You don't have permission to access this job")] }
        else
          let base : List (String × Json) :=
            [("jobId", .str item.jobId), ("status", .str item.status),
             ("createdAt", jsonOfNatOpt item.createdAt)]
          let result :=
            if item.status == "COMPLETED" then
              base ++
                [("tailoredResume", .str (item.tailoredResume.getD "")),
                 ("coverLetter", .str (item.coverLetter.getD "")),
                 ("completedAt", jsonOfNatOpt item.completedAt)]
            else if item.status == "FAILED" then
              base ++ [("errorMessage", .str (item.errorMessage.getD "Unknown error"))]
            else base
          { statusCode := 200, body := .obj result }

/-- Concrete scenario input: a short text that passes the resume-content
heuristic (67 words, many resume keywords, contact indicators and
professional terms). -/
def sampleResumeText : String :=
  "John Doe email john@example.com phone 555-1234 . Professional summary: experienced software engineer with work experience in programming . Skills : programming , software , leadership . Experience : developed systems , managed teams , led projects , implemented designs . Education : university degree bachelor master . Certification training qualification professional career objective resume . Additional filler alpha beta gamma delta epsilon zeta eta theta iota kappa"

/-- The stage-1 error list of `validate_structured_output` (lines 60-63):
top-level presence of `resume` and `coverLetter`. -/
def stage1Errs (fs : List (String × Json)) : List String :=
  (if fs.any (fun p => p.1 == "resume") then [] else ["Missing 'resume' field"]) ++
  (if fs.any (fun p => p.1 == "coverLetter") then [] else ["Missing 'coverLetter' field"])

/-- The required resume sections (line 72) missing from an object-valued
`resume`, in source order. -/
def missingResumeFields (rs : List (String × Json)) : List String :=
  ["contact", "summary", "skills", "experience", "education"].filter
    (fun f => !rs.any (fun p => p.1 == f))

theorem chunksAux_nil (cs co fuel : Nat) : chunksAux cs co fuel [] = [] := by
  cases fuel <;> rfl

theorem chunksAux_ne_nil {cs co fuel : Nat} {t : List Char}
    (ht : t ≠ []) (hf : fuel ≠ 0) :
    chunksAux cs co fuel t =
      (t.take cs) :: chunksAux cs co (fuel - 1) (t.drop (cs - co)) := by
  match fuel, t with
  | f + 1, c :: t => rfl

theorem chunkTextLoop_eq_chunksAux (text : List Char) (cs co : Nat) :
    ∀ fuel start l, chunkTextLoop text cs co start fuel = some l →
      l = chunksAux cs co fuel (text.drop start) := by
  intro fuel
  induction fuel with
  | zero =>
    intro start l h
    simp only [chunkTextLoop] at h
    by_cases hs : start < text.length
    · simp [hs] at h
    · simp [hs] at h
      subst h
      have : text.drop start = [] := by
        apply List.drop_eq_nil_of_le
        omega
      rw [this, chunksAux_nil]
  | succ fuel ih =>
    intro start l h
    simp only [chunkTextLoop] at h
    by_cases hs : start < text.length
    · simp only [if_pos hs, Option.map_eq_some'] at h
      obtain ⟨rest, hrest, hl⟩ := h
      have hr := ih _ _ hrest
      have hdrop : text.drop (start + (cs - co)) = (text.drop start).drop (cs - co) := by
        rw [List.drop_drop]
      have hne : text.drop start ≠ [] := by
        intro hcon
        have := List.drop_eq_nil_iff.mp hcon
        omega
      rw [chunksAux_ne_nil hne (by omega)]
      subst hl
      rw [hr, hdrop]
      simp
    · simp [hs] at h
      subst h
      have : text.drop start = [] := by
        apply List.drop_eq_nil_of_le
        omega
      rw [this, chunksAux_nil]

theorem chunkTextLoop_isSome (text : List Char) (cs co : Nat)
    (hstep : 0 < cs - co) :
    ∀ fuel start, text.length ≤ start + fuel * (cs - co) →
      (chunkTextLoop text cs co start fuel).isSome := by
  intro fuel
  induction fuel with
  | zero =>
    intro start h
    simp only [chunkTextLoop]
    have : ¬ start < text.length := by omega
    simp [this]
  | succ fuel ih =>
    intro start h
    simp only [chunkTextLoop]
    by_cases hs : start < text.length
    · simp only [if_pos hs]
      have := ih (start + (cs - co)) (by
        have : start + (fuel + 1) * (cs - co) = start + (cs - co) + fuel * (cs - co) := by
          ring
        omega)
      cases hx : chunkTextLoop text cs co (start + (cs - co)) fuel with
      | none => rw [hx] at this; simp at this
      | some l => simp
    · simp [hs]

theorem chunk_text_eq_chunksAux (text : List Char) (cs co : Nat)
    (h : co < cs) :
    chunk_text text cs co = chunksAux cs co text.length text := by
  have hstep : 0 < cs - co := by omega
  have hsome := chunkTextLoop_isSome text cs co hstep text.length 0
    (by
      have := Nat.le_mul_of_pos_right text.length hstep
      omega)
  rw [chunk_text]
  cases hx : chunkTextLoop text cs co 0 text.length with
  | none => rw [hx] at hsome; simp at hsome
  | some l =>
    have := chunkTextLoop_eq_chunksAux text cs co text.length 0 l hx
    simpa using this

theorem chunksAux_length_le (cs co : Nat) :
    ∀ fuel t c, c ∈ chunksAux cs co fuel t → c.length ≤ cs := by
  intro fuel
  induction fuel with
  | zero =>
    intro t c hc
    cases t with
    | nil => simp [chunksAux] at hc
    | cons a t => simp [chunksAux] at hc
  | succ fuel ih =>
    intro t c hc
    cases t with
    | nil => simp [chunksAux] at hc
    | cons a t =>
      rw [chunksAux] at hc
      rcases List.mem_cons.mp hc with h | h
      · subst h
        simp [List.length_take]
      · exact ih _ _ h

theorem chunksAux_ne_nil_of_mem {cs co fuel : Nat} {t : List Char}
    (h : chunksAux cs co fuel t ≠ []) : t ≠ [] ∧ fuel ≠ 0 := by
  constructor
  · intro hcon; subst hcon; exact h (chunksAux_nil cs co fuel)
  · intro hcon; subst hcon
    cases t with
    | nil => exact h rfl
    | cons a t => exact h rfl

/-- Consecutive chunks agree on their overlap region: dropping the stride
`cs - co` from a chunk yields exactly the first (at most) `co` characters of
the next chunk. -/
theorem chunksAux_consecutive (cs co : Nat) (hco : co ≤ cs) :
    ∀ fuel t i, i + 1 < (chunksAux cs co fuel t).length →
      ((chunksAux cs co fuel t).getD i []).drop (cs - co) =
        ((chunksAux cs co fuel t).getD (i + 1) []).take co := by
  intro fuel
  induction fuel with
  | zero =>
    intro t i h
    cases t <;> simp [chunksAux] at h
  | succ fuel ih =>
    intro t i h
    cases t with
    | nil => simp [chunksAux] at h
    | cons a t =>
      rw [chunksAux] at h ⊢
      cases i with
      | zero =>
        simp only [List.getD_cons_zero, List.getD_cons_succ]
        have hlen : 0 < (chunksAux cs co fuel ((a :: t).drop (cs - co))).length := by
          simpa using h
        have hne : chunksAux cs co fuel ((a :: t).drop (cs - co)) ≠ [] := by
          intro hcon; rw [hcon] at hlen; simp at hlen
        obtain ⟨ht, hf⟩ := chunksAux_ne_nil_of_mem hne
        rw [chunksAux_ne_nil ht hf]
        simp only [List.getD_cons_zero]
        rw [List.drop_take, List.take_take]
        congr 1
        omega
      | succ i =>
        simp only [List.getD_cons_succ]
        exact ih _ i (by simpa using h)

/-- Any chunk followed by at least two further chunks is a full window, so
its overlap region with its successor has exactly `co` characters. -/
theorem chunksAux_overlap_exact (cs co : Nat) (hco : co < cs)
    (h2 : 2 * co ≤ cs) :
    ∀ fuel t i, i + 2 < (chunksAux cs co fuel t).length →
      (((chunksAux cs co fuel t).getD i []).drop (cs - co)).length = co := by
  intro fuel
  induction fuel with
  | zero =>
    intro t i h
    cases t <;> simp [chunksAux] at h
  | succ fuel ih =>
    intro t i h
    cases t with
    | nil => simp [chunksAux] at h
    | cons a t =>
      rw [chunksAux] at h ⊢
      cases i with
      | zero =>
        simp only [List.getD_cons_zero]
        have hlen : 1 < (chunksAux cs co fuel ((a :: t).drop (cs - co))).length := by
          simp only [List.length_cons] at h
          omega
        have hne : chunksAux cs co fuel ((a :: t).drop (cs - co)) ≠ [] := by
          intro hcon; rw [hcon] at hlen; simp at hlen
        obtain ⟨ht, hf⟩ := chunksAux_ne_nil_of_mem hne
        have htail : chunksAux cs co (fuel - 1)
            (((a :: t).drop (cs - co)).drop (cs - co)) ≠ [] := by
          intro hcon
          rw [chunksAux_ne_nil ht hf, hcon] at hlen
          simp at hlen
        obtain ⟨ht2, _⟩ := chunksAux_ne_nil_of_mem htail
        -- the original list has length > 2 * (cs - co) ≥ cs
        have hlen2 : 2 * (cs - co) < (a :: t).length := by
          by_contra hcon
          apply ht2
          rw [List.drop_drop]
          apply List.drop_eq_nil_of_le
          omega
        rw [List.length_drop, List.length_take]
        omega
      | succ i =>
        simp only [List.getD_cons_succ]
        exact ih _ i (by simp only [List.length_cons] at h; omega)

theorem reassemble_nil (stride : Nat) : reassemble stride [] = [] := rfl

theorem reassemble_cons (stride : Nat) (c : List Char) (r : List (List Char))
    (hr : r ≠ []) :
    reassemble stride (c :: r) = c.take stride ++ reassemble stride r := by
  rw [reassemble, reassemble]
  cases r with
  | nil => exact absurd rfl hr
  | cons b r =>
    simp only [List.dropLast_cons₂, List.map_cons, List.join_cons,
      List.getLast?_cons_cons]
    rw [List.append_assoc]

theorem chunksAux_reassemble (cs co : Nat) (hco : co < cs) :
    ∀ fuel t, t.length ≤ fuel * (cs - co) →
      reassemble (cs - co) (chunksAux cs co fuel t) = t := by
  intro fuel
  induction fuel with
  | zero =>
    intro t h
    have : t = [] := by
      cases t with
      | nil => rfl
      | cons a t => simp at h
    subst this
    rw [chunksAux_nil, reassemble_nil]
  | succ fuel ih =>
    intro t h
    cases t with
    | nil => rw [chunksAux_nil, reassemble_nil]
    | cons a t =>
      rw [chunksAux]
      have hih := ih ((a :: t).drop (cs - co)) (by
        rw [List.length_drop]
        have : (fuel + 1) * (cs - co) = fuel * (cs - co) + (cs - co) := by ring
        omega)
      by_cases hrest : chunksAux cs co fuel ((a :: t).drop (cs - co)) = []
      · rw [hrest] at hih ⊢
        rw [reassemble_nil] at hih
        have hshort : (a :: t).length ≤ cs - co := by
          have := List.drop_eq_nil_iff.mp hih.symm
          omega
        rw [reassemble]
        simp only [List.dropLast_single, List.map_nil, List.join_nil,
          List.getLast?_singleton, Option.getD_some, List.nil_append]
        exact List.take_of_length_le (by omega)
      · rw [reassemble_cons _ _ _ hrest, hih, List.take_take]
        have hmin : min (cs - co) cs = cs - co := by omega
        rw [hmin, List.take_append_drop]

theorem chunksAux_map_length (cs co : Nat) :
    ∀ fuel t, (chunksAux cs co fuel t).map List.length =
      chunkLens cs co fuel t.length := by
  intro fuel
  induction fuel with
  | zero =>
    intro t
    cases t with
    | nil => rfl
    | cons a t => rfl
  | succ fuel ih =>
    intro t
    cases t with
    | nil => rfl
    | cons a t =>
      rw [chunksAux]
      simp only [List.map_cons]
      rw [ih]
      have h1 : ((a :: t).take cs).length = min cs (a :: t).length := by
        rw [List.length_take]
      have h2 : ((a :: t).drop (cs - co)).length = (a :: t).length - (cs - co) := by
        rw [List.length_drop]
      rw [h1, h2]
      cases hn : (a :: t).length with
      | zero => simp at hn
      | succ n => rfl

theorem chunk_text_map_length (text : List Char) (cs co : Nat) (h : co < cs) :
    (chunk_text text cs co).map List.length = chunkLens cs co text.length text.length := by
  rw [chunk_text_eq_chunksAux text cs co h]
  exact chunksAux_map_length cs co text.length text

/-- C10: `chunk_text` terminates with a finite list for every input whenever
`chunk_overlap < chunk_size` (the fuel `text.length` suffices because each
iteration advances `start` by the positive stride), and the precondition is
necessary: when `chunk_overlap ≥ chunk_size` the start index does not
advance, and the loop exhausts any amount of fuel on any nonempty text. -/
theorem claim_chunk_termination (text : List Char) (cs co : Nat) :
    (co < cs → (chunkTextLoop text cs co 0 text.length).isSome) ∧
    (cs ≤ co → ∀ start, start + (cs - co) = start) ∧
    (cs ≤ co → text ≠ [] → ∀ fuel, chunkTextLoop text cs co 0 fuel = none) := by
  refine ⟨fun h => ?_, fun h start => by omega, fun h ht fuel => ?_⟩
  · exact chunkTextLoop_isSome text cs co (by omega) text.length 0 (by
      have := Nat.le_mul_of_pos_right text.length (show 0 < cs - co by omega)
      omega)
  · have hlen : 0 < text.length := List.length_pos.mpr ht
    have hz : cs - co = 0 := by omega
    induction fuel with
    | zero => simp only [chunkTextLoop]; simp [hlen]
    | succ f ih => simp only [chunkTextLoop]; simp [hlen, hz, ih]

theorem claim_chunk_termination_witness :
    (chunkTextLoop ['a', 'b', 'c'] 2 1 0 3).isSome ∧ (5 + (1 - 2) = 5) ∧
    chunkTextLoop ['a'] 1 2 0 7 = none :=
  ⟨(claim_chunk_termination ['a', 'b', 'c'] 2 1).1 (by decide),
   (claim_chunk_termination ['a'] 1 2).2.1 (by decide) 5,
   (claim_chunk_termination ['a'] 1 2).2.2 (by decide) (by decide) 7⟩

/-- C3: every chunk returned by `chunk_text` has length at most `chunk_size`;
dropping the stride from a chunk yields exactly the leading overlap of its
successor (so consecutive chunks overlap on that region), and for every pair
whose second member is not the final chunk the overlap region has exactly
`chunk_overlap` characters (the final chunk may be shorter, giving a
correspondingly smaller overlap).  The hypotheses hold for the source's
parameters (1000, 100). -/
theorem claim_chunk_windows (text : List Char) (cs co : Nat)
    (h1 : co < cs) (h2 : 2 * co ≤ cs) :
    (∀ c ∈ chunk_text text cs co, c.length ≤ cs) ∧
    (∀ i, i + 1 < (chunk_text text cs co).length →
      ((chunk_text text cs co).getD i []).drop (cs - co) =
        ((chunk_text text cs co).getD (i + 1) []).take co) ∧
    (∀ i, i + 2 < (chunk_text text cs co).length →
      (((chunk_text text cs co).getD i []).drop (cs - co)).length = co) := by
  rw [chunk_text_eq_chunksAux text cs co h1]
  exact ⟨fun c hc => chunksAux_length_le cs co text.length text c hc,
    fun i hi => chunksAux_consecutive cs co (Nat.le_of_lt h1) text.length text i hi,
    fun i hi => chunksAux_overlap_exact cs co h1 h2 text.length text i hi⟩

theorem claim_chunk_windows_witness :
    ((chunk_text "abcdefghij".data 4 1).getD 0 []).drop 3 =
      ((chunk_text "abcdefghij".data 4 1).getD 1 []).take 1 ∧
    (((chunk_text "abcdefghij".data 4 1).getD 0 []).drop 3).length = 1 :=
  ⟨(claim_chunk_windows "abcdefghij".data 4 1 (by decide) (by decide)).2.1 0 (by decide),
   (claim_chunk_windows "abcdefghij".data 4 1 (by decide) (by decide)).2.2 0 (by decide)⟩

/-- C4: concatenating the stride-sized non-overlapping portion of every chunk
except the last, followed by the last chunk in full, reconstructs the input
text exactly, for every text and `chunk_overlap < chunk_size`. -/
theorem claim_chunk_roundtrip (text : List Char) (cs co : Nat) (h : co < cs) :
    reassemble (cs - co) (chunk_text text cs co) = text := by
  rw [chunk_text_eq_chunksAux text cs co h]
  refine chunksAux_reassemble cs co h text.length text ?_
  have := Nat.le_mul_of_pos_right text.length (show 0 < cs - co by omega)
  omega

theorem claim_chunk_roundtrip_witness :
    reassemble 3 (chunk_text "abcdefghij".data 4 1) = "abcdefghij".data :=
  claim_chunk_roundtrip "abcdefghij".data 4 1 (by decide)

/-- C5 (amended): on a 3000-character text with the default parameters
(chunk_size 1000, chunk_overlap 100) `chunk_text` returns exactly 4 chunks
of lengths 1000, 1000, 1000 and 300 — the final chunk has 300 characters,
not approximately 900 as the claim states. -/
theorem claim_chunk_3000_lengths (text : List Char) (h : text.length = 3000) :
    (chunk_text text).map List.length = [1000, 1000, 1000, 300] ∧
    (chunk_text text).length = 4 := by
  have hm := chunk_text_map_length text 1000 100 (by norm_num)
  rw [h] at hm
  have hm2 : (chunk_text text).map List.length = [1000, 1000, 1000, 300] := by
    rw [hm]; decide
  refine ⟨hm2, ?_⟩
  have := congrArg List.length hm2
  simpa using this

theorem claim_chunk_3000_witness :
    (chunk_text (List.replicate 3000 'x')).map List.length = [1000, 1000, 1000, 300] ∧
    (chunk_text (List.replicate 3000 'x')).length = 4 :=
  claim_chunk_3000_lengths (List.replicate 3000 'x') (by rw [List.length_replicate])

/-- C5 counterexample: on an explicit 3000-character text, the four chunks
have lengths 1000, 1000, 1000, 300; in particular the final chunk's length
is 300, not approximately 900. -/
theorem claim_chunk_3000_cex :
    (chunk_text (List.replicate 3000 'r')).map List.length = [1000, 1000, 1000, 300] ∧
    ((chunk_text (List.replicate 3000 'r')).map List.length).getD 3 0 ≠ 900 := by
  have hm := chunk_text_map_length (List.replicate 3000 'r') 1000 100 (by norm_num)
  simp only [List.length_replicate] at hm
  refine ⟨?_, ?_⟩ <;> rw [hm] <;> decide

/-- C1: every vector the ingestion pipeline prepares for upsert carries both
`user_id` and `original_file_id` in its metadata, and a vector query under
the generation pipeline's filter (fileId = A, userId = U) only ever returns
vectors whose stored metadata has `user_id = U` (and `original_file_id = A`),
whatever the index contains — including chunks of other users that reuse the
same fileId value. -/
theorem claim_tenant_isolation :
    (∀ (fileId userId : String) (embed : List Char → Option (List Int))
        (chunks : List (List Char)) (v : UpsertVector),
        v ∈ buildVectors fileId userId embed chunks →
          v.metadata.user_id = userId ∧ v.metadata.original_file_id = fileId) ∧
    (∀ (stored : List UpsertVector) (fileId userId : String) (top_k : Nat)
        (v : UpsertVector),
        v ∈ index_query stored (generation_filter fileId userId) top_k →
          v.metadata.user_id = userId ∧ v.metadata.original_file_id = fileId) := by
  constructor
  · intro fileId userId embed chunks v hv
    rw [buildVectors, List.mem_filterMap] at hv
    obtain ⟨p, _, hf⟩ := hv
    rw [Option.map_eq_some'] at hf
    obtain ⟨emb, _, hv⟩ := hf
    subst hv
    exact ⟨rfl, rfl⟩
  · intro stored fileId userId top_k v hv
    rw [index_query] at hv
    have hv2 := List.take_subset top_k _ hv
    rw [List.mem_filter] at hv2
    have hfilt := hv2.2
    rw [generation_filter] at hfilt
    simp only [Bool.and_eq_true, beq_iff_eq] at hfilt
    exact ⟨hfilt.2, hfilt.1⟩

theorem claim_tenant_isolation_witness :
    ((⟨"A-0", [1], ⟨['x'], "A", "U"⟩⟩ : UpsertVector).metadata.user_id = "U" ∧
      (⟨"A-0", [1], ⟨['x'], "A", "U"⟩⟩ : UpsertVector).metadata.original_file_id = "A") ∧
    ((⟨"f7-0", [2], ⟨['a'], "f7", "u9"⟩⟩ : UpsertVector).metadata.user_id = "u9" ∧
      (⟨"f7-0", [2], ⟨['a'], "f7", "u9"⟩⟩ : UpsertVector).metadata.original_file_id = "f7") :=
  ⟨claim_tenant_isolation.2
      [⟨"A-0", [1], ⟨['x'], "A", "U"⟩⟩, ⟨"A-0", [1], ⟨['y'], "A", "W"⟩⟩]
      "A" "U" 5 ⟨"A-0", [1], ⟨['x'], "A", "U"⟩⟩ (by decide),
   claim_tenant_isolation.1 "f7" "u9" (fun _ => some [2]) [['a']]
      ⟨"f7-0", [2], ⟨['a'], "f7", "u9"⟩⟩ (by decide)⟩

theorem process_pdf_validation_failed (env : PdfEnv)
    (hne : pyStrip env.extractedText ≠ [])
    (hval : (validate_resume_content (pyStrip env.extractedText)).is_valid = false) :
    process_pdf env =
      .failed (validate_resume_content (pyStrip env.extractedText)).reason
        "VALIDATION_ERROR" := by
  rw [process_pdf]
  simp [hne, hval]

/-- C6 (amended): every ingestion failure that reaches the handler's
exception path records FAILED with the error detail stored, classified
VALIDATION_ERROR exactly when the resume-content heuristic rejected the
text and PROCESSING_ERROR otherwise — this covers empty extracted text,
heuristic rejection (in particular any text of fewer than 50 words), a
raising vector upsert, and a raising status update.  Per-chunk embedding
failures are *not* such failures: `get_embedding` swallows them (see the
counterexample, where every embedding fails and the file still becomes
READY_FOR_QUERY). -/
theorem claim_ingestion_failure_paths (env : PdfEnv) :
    (pyStrip env.extractedText = [] →
      process_pdf env =
        .failed "No text could be extracted from the PDF." "PROCESSING_ERROR") ∧
    (pyStrip env.extractedText ≠ [] →
      (validate_resume_content (pyStrip env.extractedText)).is_valid = false →
      process_pdf env =
        .failed (validate_resume_content (pyStrip env.extractedText)).reason
          "VALIDATION_ERROR") ∧
    (pyStrip env.extractedText ≠ [] →
      (validate_resume_content (pyStrip env.extractedText)).is_valid = true →
      ∀ e, buildVectors env.fileId env.userId env.embed
          (chunk_text (pyStrip env.extractedText)) ≠ [] →
        env.upsertError = some e →
        process_pdf env = .failed e "PROCESSING_ERROR") ∧
    (pyStrip env.extractedText ≠ [] →
      (validate_resume_content (pyStrip env.extractedText)).is_valid = true →
      (buildVectors env.fileId env.userId env.embed
          (chunk_text (pyStrip env.extractedText)) = [] ∨ env.upsertError = none) →
      ∀ e, env.readyUpdateError = some e →
        process_pdf env = .failed e "PROCESSING_ERROR") ∧
    (∀ m, process_pdf env = .failed m "VALIDATION_ERROR" →
      (validate_resume_content (pyStrip env.extractedText)).is_valid = false ∧
      m = (validate_resume_content (pyStrip env.extractedText)).reason) ∧
    (pyStrip env.extractedText ≠ [] →
      pyWordCount (pyStrip env.extractedText) < 50 →
      process_pdf env =
        .failed "The document is too short to be a resume. Please upload a complete resume with your work experience, education, and skills."
          "VALIDATION_ERROR") := by
  refine ⟨fun h => ?_, fun hne hval => process_pdf_validation_failed env hne hval,
    fun hne hval e hvec hup => ?_, fun hne hval hok e hrd => ?_,
    fun m h => ?_, fun hne h50 => ?_⟩
  · rw [process_pdf]; simp [h]
  · rw [process_pdf]; simp [hne, hval, hvec, hup]
  · rw [process_pdf]
    rcases hok with hv | hu
    · simp [hne, hval, hv, hrd]
    · simp [hne, hval, hu, hrd]
  · rw [process_pdf] at h
    by_cases h1 : pyStrip env.extractedText = []
    · simp [h1] at h
    · simp only [h1, if_false, ite_false] at h
      by_cases h2 : (validate_resume_content (pyStrip env.extractedText)).is_valid = false
      · simp only [h2, if_true, ite_true] at h
        rw [PdfOutcome.failed.injEq] at h
        exact ⟨h2, h.1.symm⟩
      · have h2t : (validate_resume_content (pyStrip env.extractedText)).is_valid = true := by
          revert h2
          cases (validate_resume_content (pyStrip env.extractedText)).is_valid <;> simp
        rw [h2t] at h
        rw [if_neg (by simp)] at h
        cases hup : (if buildVectors env.fileId env.userId env.embed
            (chunk_text (pyStrip env.extractedText)) ≠ [] then env.upsertError
          else none) with
        | some e => rw [hup] at h; simp at h
        | none =>
          rw [hup] at h
          cases hrd : env.readyUpdateError with
          | some e => rw [hrd] at h; simp at h
          | none => rw [hrd] at h; simp at h
  · have hv : validate_resume_content (pyStrip env.extractedText) =
        ⟨false, "The document is too short to be a resume. Please upload a complete resume with your work experience, education, and skills."⟩ := by
      rw [validate_resume_content]
      simp [h50]
    have := process_pdf_validation_failed env hne (by rw [hv])
    rw [hv] at this
    exact this

theorem claim_ingestion_failure_witness :
    process_pdf
      { userId := "u", fileId := "f", extractedText := "hi there".data,
        embed := fun _ => some [0], upsertError := none, readyUpdateError := none } =
      .failed "The document is too short to be a resume. Please upload a complete resume with your work experience, education, and skills."
        "VALIDATION_ERROR" :=
  (claim_ingestion_failure_paths _).2.2.2.2.2 (by decide) (by decide)

set_option maxRecDepth 1000000 in
/-- C6 counterexample: with a heuristically valid resume text but an
embedding client whose every call fails (`get_embedding` returning `None`
after catching the exception), the handler upserts nothing and still marks
the file READY_FOR_QUERY — an ingestion-step failure that does not set
FAILED. -/
theorem claim_ingestion_failure_cex :
    process_pdf
      { userId := "u1", fileId := "f1", extractedText := sampleResumeText.data,
        embed := fun _ => none, upsertError := none, readyUpdateError := none } =
      .ready [] ∧
    (validate_resume_content (pyStrip sampleResumeText.data)).is_valid = true := by
  constructor <;> decide

/-- C7: a vector query that returns zero matches is retried exactly once
(two query calls in total); if the retry also returns zero matches the
pipeline raises the no-relevant-context `ValueError` and the job is written
FAILED with an errorMessage saying no relevant sections were found. -/
theorem claim_query_retry :
    (∀ q : Nat → Except String (List UpsertVector),
        q 0 = .ok [] → (query_loop q).2 = 2) ∧
    (∀ q : Nat → Except String (List UpsertVector),
        q 0 = .ok [] → q 1 = .ok [] → query_loop q = (.ok (some []), 2)) ∧
    (∀ (env : GenEnv) (owner : String),
        present env.jobId = true → present env.jobDescription = true →
        present env.fileId = true → env.fileOwner = some owner →
        env.embedError = none → (∀ n, env.queryError n = none) →
        index_query (env.indexAt 0)
          (generation_filter (env.fileId.getD "") owner) 5 = [] →
        index_query (env.indexAt 1)
          (generation_filter (env.fileId.getD "") owner) 5 = [] →
        process_generation env =
          .failed "Validation error: Could not find relevant sections in master resume") := by
  refine ⟨fun q h0 => ?_, fun q h0 h1 => ?_, fun env owner h1 h2 h3 h4 h5 h6 h7 h8 => ?_⟩
  · cases hq1 : q 1 <;> simp [query_loop, h0, hq1]
  · simp [query_loop, h0, h1]
  · have hq : query_loop (gen_query_attempt (env.fileId.getD "") owner
        env.indexAt env.queryError) = (.ok (some []), 2) := by
      simp [query_loop, gen_query_attempt, h6 0, h6 1, h7, h8]
    rw [process_generation]
    simp [h1, h2, h3, h4, h5, hq]

theorem claim_query_retry_witness :
    process_generation
      { jobId := some "j1", jobDescription := some "desc", fileId := some "f1",
        fileOwner := some "u1", companyTitle := ("Acme", "Engineer"),
        embedError := none, indexAt := fun _ => [], queryError := fun _ => none,
        llm := .ok "", parse := fun _ => .error "unused" } =
      .failed "Validation error: Could not find relevant sections in master resume" :=
  claim_query_retry.2.2 _ "u1" (by decide) (by decide) (by decide) rfl rfl
    (fun _ => rfl) rfl rfl

/-- C8: the pre-flight gate allows "unlimited" profiles unconditionally;
otherwise a profile with no credits remaining is rejected and the request
returns 403 with no job record created; a missing profile and an erroring
profile lookup both allow the generation to proceed (fail-open), and any
non-200 outcome of the handler creates no job. -/
theorem claim_credit_gate :
    (∀ profile : UserProfile, profile.subscriptionTier = some "unlimited" →
        credit_gate (.ok (some profile)) = .allow) ∧
    (∀ profile : UserProfile, profile.subscriptionTier.getD "free" ≠ "unlimited" →
        profile.creditsRemaining.getD 3 ≤ 0 →
        credit_gate (.ok (some profile)) = .reject) ∧
    (credit_gate (.ok none) = .allow) ∧
    (∀ e, credit_gate (.error e) = .allow) ∧
    (∀ env : StartEnv, (start_generation env).statusCode ≠ 200 →
        (start_generation env).jobCreated = none) ∧
    (∀ (env : StartEnv) (u : String), env.authUserId = some u →
        present env.fileId = true → present env.jobDescription = true →
        env.fileLookup = .ok (some ⟨some u⟩) →
        credit_gate env.profileLookup = .reject →
        start_generation env = { statusCode := 403, jobCreated := none }) ∧
    (∀ (env : StartEnv) (u : String), env.authUserId = some u →
        present env.fileId = true → present env.jobDescription = true →
        env.fileLookup = .ok (some ⟨some u⟩) →
        credit_gate env.profileLookup = .allow →
        (start_generation env).statusCode = 200 ∧
        (start_generation env).jobCreated ≠ none) := by
  refine ⟨fun p h => ?_, fun p h1 h2 => ?_, rfl, fun e => rfl,
    fun env h => ?_, fun env u h1 h2 h3 h4 h5 => ?_, fun env u h1 h2 h3 h4 h5 => ?_⟩
  · simp [credit_gate, h]
  · simp [credit_gate, h1, h2]
  · rcases env with ⟨a, fid, jd, fl, pl, nj, nw⟩
    revert h
    rw [start_generation]
    rcases a with _ | u
    · simp
    · by_cases hbody : (!present fid || !present jd) = true
      · simp [hbody]
      · simp only [hbody, ite_false, if_false, Bool.false_eq_true]
        rcases fl with e | of
        · cases hg : credit_gate pl <;> simp [hg]
        · rcases of with _ | ⟨ou⟩
          · simp
          · rcases ou with _ | owner
            · cases hg : credit_gate pl <;> simp [hg]
            · by_cases ho : (¬owner = "" ∧ ¬owner = u)
              · simp [ho]
              · cases hg : credit_gate pl <;> simp [ho, hg]
  · rw [start_generation]
    simp [h1, h2, h3, h4, h5]
  · rw [start_generation]
    simp [h1, h2, h3, h4, h5]

theorem claim_credit_gate_witness :
    credit_gate (.ok (some ⟨some "unlimited", some 0⟩)) = .allow ∧
    credit_gate (.ok (some ⟨some "free", some 0⟩)) = .reject ∧
    start_generation
      { authUserId := some "u1", fileId := some "f1", jobDescription := some "jd",
        fileLookup := .ok (some ⟨some "u1"⟩),
        profileLookup := .ok (some ⟨some "free", some 0⟩),
        newJobId := "j1", now := 0 } =
      { statusCode := 403, jobCreated := none } ∧
    (start_generation
      { authUserId := some "u1", fileId := some "f1", jobDescription := some "jd",
        fileLookup := .ok (some ⟨some "u1"⟩), profileLookup := .error (),
        newJobId := "j1", now := 0 }).statusCode = 200 :=
  ⟨claim_credit_gate.1 _ rfl,
   claim_credit_gate.2.1 _ (by decide) (by decide),
   claim_credit_gate.2.2.2.2.2.1 _ "u1" rfl (by decide) (by decide) rfl
     (claim_credit_gate.2.1 _ (by decide) (by decide)),
   (claim_credit_gate.2.2.2.2.2.2 _ "u1" rfl (by decide) (by decide) rfl
     (claim_credit_gate.2.2.2.1 ())).1⟩

/-- C9: the generation pipeline persists a COMPLETED job's result under the
`structuredData` attribute (together with companyName/jobTitle/completedAt),
but the polling endpoint builds its COMPLETED response from the
`tailoredResume` and `coverLetter` attributes, which the pipeline never
writes — so the owner's poll returns empty strings and not the persisted
result payload. -/
theorem claim_status_payload_bug :
    (apply_gen_result (new_job_record "j1" "u1" "f1" "desc" 1000)
        (.completed (.obj [("resume", .str "PAYLOAD")]) "Acme" "Engineer")
        2000).structuredData = some (.obj [("resume", .str "PAYLOAD")]) ∧
    (apply_gen_result (new_job_record "j1" "u1" "f1" "desc" 1000)
        (.completed (.obj [("resume", .str "PAYLOAD")]) "Acme" "Engineer")
        2000).status = "COMPLETED" ∧
    get_generation_status (some "u1") (some "j1")
        (fun j => if j == "j1" then
          some (apply_gen_result (new_job_record "j1" "u1" "f1" "desc" 1000)
            (.completed (.obj [("resume", .str "PAYLOAD")]) "Acme" "Engineer") 2000)
          else none) =
      { statusCode := 200
        body := .obj [("jobId", .str "j1"), ("status", .str "COMPLETED"),
          ("createdAt", .num 1000), ("tailoredResume", .str ""),
          ("coverLetter", .str ""), ("completedAt", .num 2000)] } :=
  ⟨rfl, rfl, rfl⟩

theorem except_ok_bind {α β : Type} (a : α) (g : α → Except PyExc β) :
    (Except.ok a >>= g : Except PyExc β) = g a := rfl

theorem except_pure_eq_ok {α : Type} (a : α) : (pure a : Except PyExc α) = .ok a := rfl

theorem except_error_bind {α β : Type} (e : PyExc) (g : α → Except PyExc β) :
    (Except.error e >>= g : Except PyExc β) = .error e := rfl

theorem pyContains_obj (k : String) (fs : List (String × Json)) :
    pyContains k (.obj fs) = .ok (fs.any fun p => p.1 == k) := rfl

theorem exceptBindOk {α β : Type} {x : Except PyExc α} {f : α → Except PyExc β} {b : β}
    (h : x >>= f = .ok b) : ∃ a, x = .ok a ∧ f a = .ok b := by
  cases x with
  | error e => simp [except_error_bind] at h
  | ok a => exact ⟨a, rfl, by simpa [except_ok_bind] using h⟩

theorem requiredFieldErrs_obj (rs : List (String × Json)) (fields : List String)
    (mk : String → String) :
    requiredFieldErrs (.obj rs) fields mk =
      .ok ((fields.filter (fun f => !rs.any (fun p => p.1 == f))).map mk) := by
  suffices h : ∀ acc, (fields.foldlM (fun acc f => do
      let c ← pyContains f (.obj rs)
      pure (if c then acc else acc ++ [mk f])) acc : Except PyExc _) =
      .ok (acc ++ (fields.filter (fun f => !rs.any (fun p => p.1 == f))).map mk) by
    simpa [requiredFieldErrs] using h []
  intro acc
  induction fields generalizing acc with
  | nil => simp [except_pure_eq_ok]
  | cons f fs ih =>
    cases hc : rs.any (fun p => p.1 == f) with
    | true =>
      have h1 : (List.foldlM (fun acc f => do
          let c ← pyContains f (Json.obj rs)
          pure (if c then acc else acc ++ [mk f])) acc (f :: fs) : Except PyExc _) =
          List.foldlM (fun acc f => do
            let c ← pyContains f (Json.obj rs)
            pure (if c then acc else acc ++ [mk f])) acc fs := by
        rw [List.foldlM_cons, pyContains_obj, hc]
        rfl
      rw [h1, ih]
      rw [List.filter_cons]
      simp [hc]
    | false =>
      have h1 : (List.foldlM (fun acc f => do
          let c ← pyContains f (Json.obj rs)
          pure (if c then acc else acc ++ [mk f])) acc (f :: fs) : Except PyExc _) =
          List.foldlM (fun acc f => do
            let c ← pyContains f (Json.obj rs)
            pure (if c then acc else acc ++ [mk f])) (acc ++ [mk f]) fs := by
        rw [List.foldlM_cons, pyContains_obj, hc]
        rfl
      rw [h1, ih]
      rw [List.filter_cons]
      simp [hc, List.append_assoc]

theorem matchScoreErrs_ok_nil {data : Json} (h : matchScoreErrs data = .ok []) :
    pyContains "matchScore" data = .ok true := by
  rw [matchScoreErrs] at h
  cases hc : pyContains "matchScore" data with
  | error e => rw [hc] at h; simp [except_error_bind] at h
  | ok b =>
    rw [hc] at h
    cases b with
    | false => simp [except_ok_bind, except_pure_eq_ok] at h
    | true => rfl

theorem except_throw {α : Type} (e : PyExc) :
    (throw e : Except PyExc α) = .error e := rfl

theorem collectStage3_ok_nil {data resume cl : Json}
    (h : collectStage3 data resume cl = .ok []) : matchScoreErrs data = .ok [] := by
  rw [collectStage3] at h
  obtain ⟨contact, -, h⟩ := exceptBindOk h
  obtain ⟨eC1, -, h⟩ := exceptBindOk h
  obtain ⟨eC2, -, h⟩ := exceptBindOk h
  obtain ⟨skills, -, h⟩ := exceptBindOk h
  obtain ⟨experience, -, h⟩ := exceptBindOk h
  obtain ⟨education, -, h⟩ := exceptBindOk h
  obtain ⟨skillItems, -, h⟩ := exceptBindOk h
  obtain ⟨eSk, -, h⟩ := exceptBindOk h
  obtain ⟨expItems, -, h⟩ := exceptBindOk h
  obtain ⟨eEx, -, h⟩ := exceptBindOk h
  obtain ⟨eduItems, -, h⟩ := exceptBindOk h
  obtain ⟨eEd, -, h⟩ := exceptBindOk h
  obtain ⟨ePr, -, h⟩ := exceptBindOk h
  obtain ⟨ePu, -, h⟩ := exceptBindOk h
  obtain ⟨eCe, -, h⟩ := exceptBindOk h
  obtain ⟨eAw, -, h⟩ := exceptBindOk h
  obtain ⟨eVo, -, h⟩ := exceptBindOk h
  obtain ⟨eMe, -, h⟩ := exceptBindOk h
  obtain ⟨eLa, -, h⟩ := exceptBindOk h
  obtain ⟨eCl, -, h⟩ := exceptBindOk h
  obtain ⟨eMs, hMs, h⟩ := exceptBindOk h
  rw [except_pure_eq_ok] at h
  have h2 : eMs = [] := by
    have h3 := Except.ok.inj h
    simp [List.append_eq_nil] at h3
    obtain ⟨-, -, -, -, -, -, -, -, -, -, -, -, -, -, -, -, h4⟩ := h3
    exact h4
  rw [h2] at hMs
  exact hMs

theorem validate_ok_matchScore {data : Json}
    (h : validate_structured_output data = .ok true) :
    pyContains "matchScore" data = .ok true := by
  rw [validate_structured_output] at h
  cases hO : data.isObj with
  | false => rw [hO] at h; simp [except_throw, except_error_bind] at h
  | true =>
    rw [hO] at h
    simp only [Bool.not_true, ite_false, if_false, except_pure_eq_ok, except_ok_bind] at h
    obtain ⟨cR, hcR, h⟩ := exceptBindOk h
    obtain ⟨cC, hcC, h⟩ := exceptBindOk h
    by_cases he0 : ((if cR then ([] : List String) else ["Missing 'resume' field"]) ++
        (if cC then ([] : List String) else ["Missing 'coverLetter' field"])) = [] 
    · rw [he0] at h
      simp only [ne_eq, not_true, ite_false, if_false, except_pure_eq_ok, except_ok_bind,
        not_false_eq_true, ite_true, if_true] at h
      obtain ⟨resume, hres, h⟩ := exceptBindOk h
      obtain ⟨cl, hcl, h⟩ := exceptBindOk h
      obtain ⟨e1, he1, h⟩ := exceptBindOk h
      by_cases he1nil : e1 = []
      · rw [he1nil] at h
        simp only [ne_eq, not_true, ite_false, if_false, except_pure_eq_ok, except_ok_bind,
          not_false_eq_true, ite_true, if_true] at h
        obtain ⟨e2, he2, h⟩ := exceptBindOk h
        by_cases he2nil : e2 = []
        · rw [he2nil] at he2
          exact matchScoreErrs_ok_nil (collectStage3_ok_nil he2)
        · rw [if_pos he2nil] at h
          simp [except_throw, except_error_bind] at h
      · rw [if_pos he1nil] at h
        simp [except_throw, except_error_bind] at h
    · rw [if_pos he0] at h
      simp [except_throw, except_error_bind] at h

theorem validate_not_obj {data : Json} (h : data.isObj = false) :
    validate_structured_output data =
      .error (.valueError "Output must be a JSON object") := by
  rw [validate_structured_output, h]
  rfl

theorem validate_stage1 (fs : List (String × Json)) (hne : stage1Errs fs ≠ []) :
    validate_structured_output (.obj fs) =
      .error (.valueError (joinSemi (stage1Errs fs))) := by
  rw [validate_structured_output]
  simp only [show (Json.obj fs).isObj = true from rfl, Bool.not_true,
    Bool.false_eq_true, ite_false, if_false, except_pure_eq_ok, except_ok_bind,
    pyContains_obj]
  rw [show ((if (fs.any fun p => p.1 == "resume") = true then ([] : List String)
      else ["Missing 'resume' field"]) ++
      if (fs.any fun p => p.1 == "coverLetter") = true then ([] : List String)
      else ["Missing 'coverLetter' field"]) = stage1Errs fs from rfl]
  rw [if_pos hne]
  rfl

theorem pyGetItem_obj_ok_of_any {fs : List (String × Json)} {k : String}
    (h : fs.any (fun p => p.1 == k) = true) :
    ∃ v, pyGetItem (.obj fs) k = .ok v := by
  rw [pyGetItem]
  cases hf : fs.find? (fun p => p.1 == k) with
  | some p => exact ⟨p.2, rfl⟩
  | none =>
    rw [List.find?_eq_none] at hf
    rw [List.any_eq_true] at h
    obtain ⟨p, hp, hpk⟩ := h
    exact absurd hpk (by simpa using hf p hp)

theorem validate_stage2 (fs rs : List (String × Json))
    (hR : fs.any (fun p => p.1 == "resume") = true)
    (hC : fs.any (fun p => p.1 == "coverLetter") = true)
    (hres : pyGetItem (.obj fs) "resume" = .ok (.obj rs))
    (hne : missingResumeFields rs ≠ []) :
    validate_structured_output (.obj fs) =
      .error (.valueError (joinSemi ((missingResumeFields rs).map
        (fun f => "Resume missing '" ++ f ++ "' field")))) := by
  rw [validate_structured_output]
  simp only [show (Json.obj fs).isObj = true from rfl, Bool.not_true,
    Bool.false_eq_true, ite_false, if_false, except_pure_eq_ok, except_ok_bind,
    pyContains_obj, hR, hC, ite_true, if_true, List.append_nil, List.nil_append,
    ne_eq, not_true_eq_false, not_false_eq_true]
  obtain ⟨clv, hcl⟩ := pyGetItem_obj_ok_of_any hC
  rw [hres]
  simp only [except_ok_bind]
  rw [hcl]
  simp only [except_ok_bind]
  rw [requiredFieldErrs_obj]
  simp only [except_ok_bind]
  rw [if_pos]
  · rfl
  · simpa [missingResumeFields] using hne

/-- C2 (amended): `validate_structured_output` rejects an object that is
missing required fields or has wrongly-typed containers, and the single
`ValueError` it raises aggregates every violation found *in the stage that
raises* — but validation is staged, not one pass over the whole object:
stage 1 checks top-level `resume`/`coverLetter` presence, stage 2 the five
required resume sections, stage 3 everything else (contact, item lists,
cover letter, match score); a violation caught in an earlier stage
suppresses the report of all later-stage violations.  An output accepted
(`ok true`) does carry a `matchScore` field, and within the final stage
violations of different sections are aggregated together (last conjunct). -/
theorem claim_schema_validation_staged :
    (∀ data : Json, data.isObj = false →
      validate_structured_output data =
        .error (.valueError "Output must be a JSON object")) ∧
    (∀ fs : List (String × Json), stage1Errs fs ≠ [] →
      validate_structured_output (.obj fs) =
        .error (.valueError (joinSemi (stage1Errs fs)))) ∧
    (∀ fs rs : List (String × Json),
      fs.any (fun p => p.1 == "resume") = true →
      fs.any (fun p => p.1 == "coverLetter") = true →
      pyGetItem (.obj fs) "resume" = .ok (.obj rs) →
      missingResumeFields rs ≠ [] →
      validate_structured_output (.obj fs) =
        .error (.valueError (joinSemi ((missingResumeFields rs).map
          (fun f => "Resume missing '" ++ f ++ "' field"))))) ∧
    (∀ data : Json, validate_structured_output data = .ok true →
      pyContains "matchScore" data = .ok true) ∧
    (validate_structured_output
        (.obj [("resume", .obj [("contact", .obj [("email", .str "e@x")]),
            ("summary", .str "s"), ("skills", .arr []), ("experience", .arr []),
            ("education", .arr [])]),
          ("coverLetter", .obj [("companyName", .str "c"), ("position", .str "p"),
            ("paragraphs", .arr [])])]) =
      .error (.valueError "Contact missing required 'name' field; Missing 'matchScore' field")) :=
  ⟨fun _ h => validate_not_obj h, validate_stage1, validate_stage2,
   fun _ h => validate_ok_matchScore h, rfl⟩

theorem claim_schema_validation_witness :
    validate_structured_output (.str "not an object") =
      .error (.valueError "Output must be a JSON object") ∧
    validate_structured_output (.obj [("other", .null)]) =
      .error (.valueError "Missing 'resume' field; Missing 'coverLetter' field") ∧
    validate_structured_output (.obj [("resume", .obj [("contact", .null),
        ("summary", .null), ("experience", .null)]), ("coverLetter", .null)]) =
      .error (.valueError "Resume missing 'skills' field; Resume missing 'education' field") :=
  ⟨claim_schema_validation_staged.1 _ rfl,
   claim_schema_validation_staged.2.1 _ (by decide),
   claim_schema_validation_staged.2.2.1
      [("resume", .obj [("contact", .null), ("summary", .null), ("experience", .null)]),
       ("coverLetter", .null)]
      [("contact", .null), ("summary", .null), ("experience", .null)]
      (by decide) (by decide) rfl (by decide)⟩

/-- C2 counterexample: an output whose resume lacks four required sections
*and* whose cover letter (an empty object) lacks all three of its required
fields *and* which is missing `matchScore` entirely raises a single error
naming only the resume sections — the cover-letter and matchScore
violations, found by the same schema, are absent from the aggregated
message, so the error does not list every violation found in one pass over
the whole object. -/
theorem claim_schema_aggregation_cex :
    validate_structured_output (.obj [("resume", .obj [("summary", .str "s")]),
        ("coverLetter", .obj [])]) =
      .error (.valueError "Resume missing 'contact' field; Resume missing 'skills' field; Resume missing 'experience' field; Resume missing 'education' field") ∧
    ¬ ("Cover letter".data <:+: "Resume missing 'contact' field; Resume missing 'skills' field; Resume missing 'experience' field; Resume missing 'education' field".data) ∧
    ¬ ("matchScore".data <:+: "Resume missing 'contact' field; Resume missing 'skills' field; Resume missing 'experience' field; Resume missing 'education' field".data) :=
  ⟨rfl, by set_option maxRecDepth 100000 in decide, by set_option maxRecDepth 100000 in decide⟩

end PdfSummarizer
